import Mathlib

/-!
# Verification of the simplenn Dense layer and test harness

A shallow embedding of `src/simplenn/models/dense.py` and of the
batch-size computation in `src/test/regression.py`.

The Dense layer owns three child layers (a Linear, a Bias and an
Activation).  The children's source files are outside this snapshot, so a
child is modelled abstractly through the layer contract it must satisfy:
`forward_with_cache`, `backward` and `get_parameters`, all pure functions
over an abstract tensor type `T` and an abstract per-layer cache type.
All theorems about the Dense composite hold for arbitrary children, which
is exactly the situation of `dense.py`: it only calls the three methods.

Python parameter dictionaries are modelled by their lookup functions
`String → Option T`; Python's dict unpacking merge, where a later dict
wins on shared keys, is `dictMerge`.
-/

namespace Simplenn

/-- A Python parameter dictionary (name → tensor), modelled by its lookup
function. -/
def ParamDict (T : Type) : Type := String → Option T

/-- The empty parameter mapping, e.g. of an activation with no learnable
parameters. -/
def emptyDict {T : Type} : ParamDict T := fun _ => none

/-- Python dict unpacking of two dicts: the result holds the key union, and
on a shared key the later (second) dict silently overwrites the first. -/
def dictMerge {T : Type} (a b : ParamDict T) : ParamDict T :=
  fun k =>
    match b k with
    | some v => some v
    | none => a k

/-- The layer contract of §4.1 of the spec, satisfied by the Linear, Bias and
activation children that `Dense` owns.  Their implementations are outside
this snapshot; `dense.py` uses them only through these three methods, which
are side-effect free per the contract. -/
structure Layer (T C : Type) where
  forward_with_cache : T → T × C
  backward : T → C → T × ParamDict T
  get_parameters : ParamDict T

/-- A layer's plain forward pass: the output component of
`forward_with_cache`. -/
def Layer.forward {T C : Type} (l : Layer T C) (x : T) : T :=
  (l.forward_with_cache x).1

/-- The runtime state of a `Dense` layer: the three owned children
(`self.linear`, `self.bias`, `self.activation`). -/
structure Dense (T CL CB CA : Type) where
  linear : Layer T CL
  bias : Layer T CB
  activation : Layer T CA

/-- `Dense.forward_with_cache` (dense.py lines 64-72):
threads `x` through linear, bias, activation and returns the final output
together with the 3-tuple of the children's caches. -/
def Dense.forward_with_cache {T CL CB CA : Type} (d : Dense T CL CB CA) (x : T) :
    T × (CL × CB × CA) :=
  let rl := d.linear.forward_with_cache x
  let rb := d.bias.forward_with_cache rl.1
  let ra := d.activation.forward_with_cache rb.1
  (ra.1, (rl.2, rb.2, ra.2))

/-- The gradient merge on dense.py line 88:
`{**δEδbias, **δEδlinear, **δEδactivation}` (bias first, then linear, then
activation; a later dict wins on shared keys). -/
def denseMergeBackward {T : Type} (δEδbias δEδlinear δEδactivation : ParamDict T) :
    ParamDict T :=
  dictMerge (dictMerge δEδbias δEδlinear) δEδactivation

/-- The parameter merge on dense.py line 100:
`{**p_linear, **p_bias, **p_activation}` (linear first, then bias, then
activation; a later dict wins on shared keys). -/
def denseMergeParams {T : Type} (p_linear p_bias p_activation : ParamDict T) :
    ParamDict T :=
  dictMerge (dictMerge p_linear p_bias) p_activation

/-- `Dense.backward` (dense.py lines 74-89): unpacks the cache 3-tuple,
runs the children's backward passes in reverse order
(activation, then bias, then linear), returns the linear child's downstream
gradient together with the merged parameter gradients. -/
def Dense.backward {T CL CB CA : Type} (d : Dense T CL CB CA) (δEδy : T)
    (cache : CL × CB × CA) : T × ParamDict T :=
  let cache_linear := cache.1
  let cache_bias := cache.2.1
  let cache_activation := cache.2.2
  let ra := d.activation.backward δEδy cache_activation
  let rb := d.bias.backward ra.1 cache_bias
  let rl := d.linear.backward rb.1 cache_linear
  (rl.1, denseMergeBackward rb.2 rl.2 ra.2)

/-- `Dense.get_parameters` (dense.py lines 92-101): merges the children's
parameter dicts as `{**p_linear, **p_bias, **p_activation}`. -/
def Dense.get_parameters {T CL CB CA : Type} (d : Dense T CL CB CA) : ParamDict T :=
  denseMergeParams d.linear.get_parameters d.bias.get_parameters
    d.activation.get_parameters

/-- `Dense.forward_with_cache` with the post-call object state made explicit:
the method body (dense.py lines 64-72) only reads `self.linear`, `self.bias`
and `self.activation` and assigns no attribute, so the post-state is the
layer unchanged. -/
def Dense.forward_with_cacheS {T CL CB CA : Type} (d : Dense T CL CB CA) (x : T) :
    (T × (CL × CB × CA)) × Dense T CL CB CA :=
  (Dense.forward_with_cache d x, d)

/-- Initializer strategies named in dense.py's constructor signature
(their implementations live outside this snapshot and are out of scope,
only which strategy is selected matters). -/
inductive Initializer : Type
  | Zero
  | RandomNormal
  deriving DecidableEq

/-- The activation classes reachable from `activation_dict` in dense.py. -/
inductive ActivationKind : Type
  | identity
  | relu
  | tanh
  | sigmoid
  | softmax
  deriving DecidableEq

/-- `activation_dict` (dense.py lines 10-15): name → activation class, in
source order. -/
def activation_dict : List (String × ActivationKind) :=
  [("id", ActivationKind.identity),
   ("relu", ActivationKind.relu),
   ("tanh", ActivationKind.tanh),
   ("sigmoid", ActivationKind.sigmoid),
   ("softmax", ActivationKind.softmax)]

/-- Configuration of the Linear child: `Linear(input_size, output_size,
initializer=linear_initializer)`. -/
structure LinearCfg where
  input_size : Nat
  output_size : Nat
  initializer : Initializer
  deriving DecidableEq

/-- Configuration of the Bias child: `Bias(output_size,
initializer=bias_initializer)`. -/
structure BiasCfg where
  output_size : Nat
  initializer : Initializer
  deriving DecidableEq

/-- What `Dense.__init__` builds: the two configured children and the
selected activation. -/
structure DenseCfg where
  linear : LinearCfg
  bias : BiasCfg
  activation : ActivationKind
  deriving DecidableEq

/-- Default of the `activation_name` argument in dense.py line 48: `None`. -/
def default_activation_name : Option String := none

/-- Default of the `linear_initializer` argument in dense.py line 49:
`RandomNormal()`. -/
def default_linear_initializer : Initializer := Initializer.RandomNormal

/-- Default of the `bias_initializer` argument in dense.py line 49:
`Zero()`. -/
def default_bias_initializer : Initializer := Initializer.Zero

/-- `Dense.__init__` (dense.py lines 48-62): builds the Linear and Bias
children, replaces a `None` activation name by `"id"`, looks the name up in
`activation_dict` and otherwise raises
`ValueError(f"Unknown activation function {activation_name}. Available
activations: {','.join(activation_dict.keys())}")`. -/
def mkDense (input_size output_size : Nat) (activation_name : Option String)
    (linear_initializer bias_initializer : Initializer) : Except String DenseCfg :=
  let lin : LinearCfg := ⟨input_size, output_size, linear_initializer⟩
  let b : BiasCfg := ⟨output_size, bias_initializer⟩
  let name := activation_name.getD "id"
  match activation_dict.lookup name with
  | some a => Except.ok ⟨lin, b, a⟩
  | none =>
      Except.error ("Unknown activation function " ++ name ++
        ". Available activations: " ++
        String.intercalate "," (activation_dict.map Prod.fst))

/-- `Dense.__init__` with every optional argument left at its declared
default. -/
def mkDenseDefaults (input_size output_size : Nat) : Except String DenseCfg :=
  mkDense input_size output_size default_activation_name
    default_linear_initializer default_bias_initializer

/-- Batch-size computation of the regression harness
(`src/test/regression.py` lines 24-25):
`batch_size = min(16, max(64, n//32)); batch_size = min(n, batch_size)`. -/
def regressionBatchSize (n : Nat) : Nat :=
  let batch_size := min 16 (max 64 (n / 32))
  min n batch_size

/-! ## Concrete child layers used as witnesses

Integer tensors, unit caches.  `linearW` and `biasW` both expose a
parameter named `"w"`, exercising the name-collision behaviour; `biasB`
uses the disjoint name `"b"`; `actNoParam` is a parameter-free activation;
`actW` is an activation that also exposes `"w"`. -/

def linearW : Layer Int Unit where
  forward_with_cache := fun x => (2 * x, ())
  backward := fun g _ => (2 * g, fun k => if k = "w" then some 10 else none)
  get_parameters := fun k => if k = "w" then some 1 else none

def biasW : Layer Int Unit where
  forward_with_cache := fun x => (x + 5, ())
  backward := fun g _ => (g, fun k => if k = "w" then some 20 else none)
  get_parameters := fun k => if k = "w" then some 2 else none

def biasB : Layer Int Unit where
  forward_with_cache := fun x => (x + 5, ())
  backward := fun g _ => (g, fun k => if k = "b" then some 20 else none)
  get_parameters := fun k => if k = "b" then some 2 else none

def actNoParam : Layer Int Unit where
  forward_with_cache := fun x => (x, ())
  backward := fun g _ => (g, emptyDict)
  get_parameters := emptyDict

def actW : Layer Int Unit where
  forward_with_cache := fun x => (x * x, ())
  backward := fun g _ => (g, fun k => if k = "w" then some 30 else none)
  get_parameters := fun k => if k = "w" then some 3 else none

/-- A Dense layer whose Linear and Bias children collide on the parameter
name `"w"` while the activation is parameter-free. -/
def dCollLB : Dense Int Unit Unit Unit := ⟨linearW, biasW, actNoParam⟩

/-- A Dense layer in which all three children expose the parameter
name `"w"`. -/
def dCollAll : Dense Int Unit Unit Unit := ⟨linearW, biasW, actW⟩

/-- A Dense layer with the disjoint parameter names `"w"` (linear) and
`"b"` (bias) that the real Linear and Bias classes use. -/
def dStd : Dense Int Unit Unit Unit := ⟨linearW, biasB, actNoParam⟩

/-! ## Theorems -/

/-- C1: for every input `x` and every Dense layer, `forward_with_cache`
returns `activation(bias(linear(x)))` — the owned Linear's forward, then
the owned Bias's forward, then the owned Activation's forward — together
with the cache 3-tuple `(cache_linear, cache_bias, cache_activation)`
holding the three children's caches in that order. -/
theorem dense_forward_composition {T CL CB CA : Type} (d : Dense T CL CB CA) (x : T) :
    Dense.forward_with_cache d x =
      (d.activation.forward (d.bias.forward (d.linear.forward x)),
        ((d.linear.forward_with_cache x).2,
         (d.bias.forward_with_cache (d.linear.forward x)).2,
         (d.activation.forward_with_cache (d.bias.forward (d.linear.forward x))).2)) :=
  rfl

/-- C2: `Dense.backward` consumes the cache 3-tuple in reverse order — the
Activation's backward on the upstream gradient with `cache_activation`, its
result into the Bias's backward with `cache_bias`, that result into the
Linear's backward with `cache_linear` — and returns the Linear's downstream
gradient as dE/dx, next to the merged parameter gradients. -/
theorem dense_backward_reverse_order {T CL CB CA : Type} (d : Dense T CL CB CA)
    (δEδy : T) (cache_linear : CL) (cache_bias : CB) (cache_activation : CA) :
    Dense.backward d δEδy (cache_linear, cache_bias, cache_activation) =
      ((d.linear.backward
          (d.bias.backward (d.activation.backward δEδy cache_activation).1 cache_bias).1
          cache_linear).1,
        denseMergeBackward
          (d.bias.backward (d.activation.backward δEδy cache_activation).1 cache_bias).2
          (d.linear.backward
            (d.bias.backward (d.activation.backward δEδy cache_activation).1 cache_bias).1
            cache_linear).2
          (d.activation.backward δEδy cache_activation).2) :=
  rfl

/-- C5: constructing a Dense layer with every optional argument omitted
selects the Identity activation, a RandomNormal initializer for the linear
weight and a Zero initializer for the bias value. -/
theorem dense_defaults (input_size output_size : Nat) :
    mkDenseDefaults input_size output_size =
      Except.ok ⟨⟨input_size, output_size, Initializer.RandomNormal⟩,
        ⟨output_size, Initializer.Zero⟩, ActivationKind.identity⟩ :=
  rfl

/-- C7: calling `forward_with_cache` twice with the same input on an
unmodified layer yields identical output and cache both times, and neither
call mutates the layer or any parameter value obtained through
`get_parameters`. -/
theorem dense_forward_idempotent {T CL CB CA : Type} (d : Dense T CL CB CA) (x : T) :
    (Dense.forward_with_cacheS d x).1 =
        (Dense.forward_with_cacheS (Dense.forward_with_cacheS d x).2 x).1
      ∧ (Dense.forward_with_cacheS (Dense.forward_with_cacheS d x).2 x).2 = d
      ∧ Dense.get_parameters (Dense.forward_with_cacheS (Dense.forward_with_cacheS d x).2 x).2
          = Dense.get_parameters d :=
  ⟨rfl, rfl, rfl⟩

/-- C10: the regression harness computes `min(n, min(16, max(64, n//32)))`,
which always equals `min n 16` because `max 64 (n/32) ≥ 64` makes the inner
`min` constantly 16; the batch size is capped at 16 and never grows with
the dataset size. -/
theorem regression_batch_size_capped (n : Nat) :
    regressionBatchSize n = min n 16
      ∧ min 16 (max 64 (n / 32)) = 16
      ∧ regressionBatchSize n ≤ 16 := by
  refine ⟨?_, ?_, ?_⟩ <;>
    · simp only [regressionBatchSize, Nat.min_def, Nat.max_def]
      split_ifs <;> omega

/-- C3: the parameter-gradient mapping returned by `Dense.backward` holds
the key union of the three children's parameter-gradient mappings (bias,
linear, activation), and a child that owns no parameters — here the
activation, whose mapping is empty at `k` — contributes nothing: the
result then agrees with the merge of the bias and linear mappings alone. -/
theorem dense_backward_param_grads_union {T CL CB CA : Type} (d : Dense T CL CB CA)
    (δEδy : T) (cache_linear : CL) (cache_bias : CB) (cache_activation : CA) (k : String)
    (ha : (d.activation.backward δEδy cache_activation).2 k = none) :
    (((Dense.backward d δEδy (cache_linear, cache_bias, cache_activation)).2 k).isSome
        = (((d.bias.backward (d.activation.backward δEδy cache_activation).1 cache_bias).2 k).isSome
            || ((d.linear.backward
                  (d.bias.backward (d.activation.backward δEδy cache_activation).1 cache_bias).1
                  cache_linear).2 k).isSome
            || ((d.activation.backward δEδy cache_activation).2 k).isSome))
      ∧ (Dense.backward d δEδy (cache_linear, cache_bias, cache_activation)).2 k
          = dictMerge (d.bias.backward (d.activation.backward δEδy cache_activation).1 cache_bias).2
              (d.linear.backward
                (d.bias.backward (d.activation.backward δEδy cache_activation).1 cache_bias).1
                cache_linear).2 k := by
  constructor
  · rcases hA : (d.activation.backward δEδy cache_activation).2 k with _ | u <;>
      rcases hL : (d.linear.backward
          (d.bias.backward (d.activation.backward δEδy cache_activation).1 cache_bias).1
          cache_linear).2 k with _ | w <;>
        rcases hB : (d.bias.backward (d.activation.backward δEδy cache_activation).1 cache_bias).2 k
            with _ | v <;>
          simp [Dense.backward, denseMergeBackward, dictMerge, hA, hL, hB]
  · simp [Dense.backward, denseMergeBackward, dictMerge, ha]

/-- Witness for C3 at a concrete layer: the parameter-free activation of
`dCollLB` contributes an empty gradient mapping at `"w"`. -/
theorem dense_backward_param_grads_union_w :
    (dCollLB.activation.backward 0 ()).2 "w" = none
      ∧ ((((Dense.backward dCollLB 0 ((), (), ())).2 "w").isSome
            = (((dCollLB.bias.backward (dCollLB.activation.backward 0 ()).1 ()).2 "w").isSome
                || ((dCollLB.linear.backward
                      (dCollLB.bias.backward (dCollLB.activation.backward 0 ()).1 ()).1
                      ()).2 "w").isSome
                || ((dCollLB.activation.backward 0 ()).2 "w").isSome))
          ∧ (Dense.backward dCollLB 0 ((), (), ())).2 "w"
              = dictMerge (dCollLB.bias.backward (dCollLB.activation.backward 0 ()).1 ()).2
                  (dCollLB.linear.backward
                    (dCollLB.bias.backward (dCollLB.activation.backward 0 ()).1 ()).1
                    ()).2 "w") :=
  ⟨rfl, dense_backward_param_grads_union dCollLB 0 () () () "w" rfl⟩

/-- C4: an activation name outside `{id, relu, tanh, sigmoid, softmax}`
makes Dense construction fail with an error that names the unsupported
value and lists the five valid choices, while each of the five supported
names selects the corresponding activation. -/
theorem dense_activation_dispatch (input_size output_size : Nat)
    (linear_initializer bias_initializer : Initializer) (name : String)
    (h : name ∉ ["id", "relu", "tanh", "sigmoid", "softmax"]) :
    mkDense input_size output_size (some name) linear_initializer bias_initializer
        = Except.error ("Unknown activation function " ++ name ++
            ". Available activations: " ++ "id,relu,tanh,sigmoid,softmax")
      ∧ mkDense input_size output_size (some "id") linear_initializer bias_initializer
          = Except.ok ⟨⟨input_size, output_size, linear_initializer⟩,
              ⟨output_size, bias_initializer⟩, ActivationKind.identity⟩
      ∧ mkDense input_size output_size (some "relu") linear_initializer bias_initializer
          = Except.ok ⟨⟨input_size, output_size, linear_initializer⟩,
              ⟨output_size, bias_initializer⟩, ActivationKind.relu⟩
      ∧ mkDense input_size output_size (some "tanh") linear_initializer bias_initializer
          = Except.ok ⟨⟨input_size, output_size, linear_initializer⟩,
              ⟨output_size, bias_initializer⟩, ActivationKind.tanh⟩
      ∧ mkDense input_size output_size (some "sigmoid") linear_initializer bias_initializer
          = Except.ok ⟨⟨input_size, output_size, linear_initializer⟩,
              ⟨output_size, bias_initializer⟩, ActivationKind.sigmoid⟩
      ∧ mkDense input_size output_size (some "softmax") linear_initializer bias_initializer
          = Except.ok ⟨⟨input_size, output_size, linear_initializer⟩,
              ⟨output_size, bias_initializer⟩, ActivationKind.softmax⟩ := by
  refine ⟨?_, rfl, rfl, rfl, rfl, rfl⟩
  simp only [List.mem_cons, List.not_mem_nil, or_false, not_or] at h
  obtain ⟨h1, h2, h3, h4, h5⟩ := h
  have hl : activation_dict.lookup name = none := by
    simp [activation_dict, List.lookup_cons, beq_false_of_ne h1, beq_false_of_ne h2,
      beq_false_of_ne h3, beq_false_of_ne h4, beq_false_of_ne h5]
  simp [mkDense, hl]
  congr 1

/-- Witness for C4 at the unsupported name `"foo"` of end-to-end
scenario 2. -/
theorem dense_activation_dispatch_w :
    "foo" ∉ (["id", "relu", "tanh", "sigmoid", "softmax"] : List String)
      ∧ mkDense 3 2 (some "foo") Initializer.RandomNormal Initializer.Zero
          = Except.error ("Unknown activation function " ++ "foo" ++
              ". Available activations: " ++ "id,relu,tanh,sigmoid,softmax") :=
  ⟨by decide,
    (dense_activation_dispatch 3 2 Initializer.RandomNormal Initializer.Zero "foo"
      (by decide)).1⟩

/-- C6 counterexample: `Dense.get_parameters` is NOT merged the same way as
the parameter-gradient mappings in `Dense.backward`.  On `dCollLB`, whose
Linear and Bias both expose `"w"`, `get_parameters` keeps the Bias value
(`some 2`) while the merge order of `backward` (bias first, then linear,
then activation) would keep the Linear value (`some 1`). -/
theorem dense_get_parameters_merge_anomaly :
    ¬ Dense.get_parameters dCollLB "w"
        = denseMergeBackward dCollLB.bias.get_parameters dCollLB.linear.get_parameters
            dCollLB.activation.get_parameters "w" := by
  simp [Dense.get_parameters, denseMergeParams, denseMergeBackward, dictMerge,
    dCollLB, linearW, biasW, actNoParam, emptyDict]

/-- C6 (amended): `Dense.get_parameters` returns the key union of the three
children's parameter mappings, merged by the same dict-unpacking mechanism
as the parameter-gradient mappings in `Dense.backward` but in the order
linear, bias, activation (not bias, linear, activation); at every name on
which the Linear and Bias children do not collide the two merge orders
agree. -/
theorem dense_get_parameters_union {T CL CB CA : Type} (d : Dense T CL CB CA)
    (k : String)
    (hdisj : d.linear.get_parameters k = none ∨ d.bias.get_parameters k = none) :
    Dense.get_parameters d
        = denseMergeParams d.linear.get_parameters d.bias.get_parameters
            d.activation.get_parameters
      ∧ (Dense.get_parameters d k).isSome
          = ((d.linear.get_parameters k).isSome || (d.bias.get_parameters k).isSome
              || (d.activation.get_parameters k).isSome)
      ∧ Dense.get_parameters d k
          = denseMergeBackward d.bias.get_parameters d.linear.get_parameters
              d.activation.get_parameters k := by
  refine ⟨rfl, ?_, ?_⟩
  · rcases hA : d.activation.get_parameters k with _ | u <;>
      rcases hL : d.linear.get_parameters k with _ | w <;>
        rcases hB : d.bias.get_parameters k with _ | v <;>
          simp [Dense.get_parameters, denseMergeParams, dictMerge, hA, hL, hB]
  · rcases hdisj with hd | hd <;>
      rcases hA : d.activation.get_parameters k with _ | u <;>
        rcases hB : d.bias.get_parameters k with _ | v <;>
          rcases hL : d.linear.get_parameters k with _ | w <;>
            simp_all [Dense.get_parameters, denseMergeParams, denseMergeBackward, dictMerge]

/-- Witness for C6 (amended) at the collision-free layer `dStd`, whose
Linear owns `"w"` and whose Bias owns `"b"`. -/
theorem dense_get_parameters_union_w :
    (dStd.linear.get_parameters "w" = none ∨ dStd.bias.get_parameters "w" = none)
      ∧ (Dense.get_parameters dStd
          = denseMergeParams dStd.linear.get_parameters dStd.bias.get_parameters
              dStd.activation.get_parameters
        ∧ (Dense.get_parameters dStd "w").isSome
            = ((dStd.linear.get_parameters "w").isSome
                || (dStd.bias.get_parameters "w").isSome
                || (dStd.activation.get_parameters "w").isSome)
        ∧ Dense.get_parameters dStd "w"
            = denseMergeBackward dStd.bias.get_parameters dStd.linear.get_parameters
                dStd.activation.get_parameters "w") :=
  ⟨Or.inr (by decide), dense_get_parameters_union dStd "w" (Or.inr (by decide))⟩

/-- C8: when two children reuse a parameter name, the merges in
`Dense.backward` and `Dense.get_parameters` silently overwrite the earlier
entry with the later one: here both an earlier child (linear resp. bias)
and the activation — merged last in both methods — hold the name `k`, and
the merged result is the activation's entry; no error is raised. -/
theorem dense_merge_silent_overwrite {T CL CB CA : Type} (d : Dense T CL CB CA)
    (δEδy : T) (cache_linear : CL) (cache_bias : CB) (cache_activation : CA) (k : String)
    (hpEarly : (d.linear.get_parameters k).isSome = true)
    (hpLate : (d.activation.get_parameters k).isSome = true)
    (hgEarly : ((d.bias.backward (d.activation.backward δEδy cache_activation).1 cache_bias).2
        k).isSome = true)
    (hgLate : ((d.activation.backward δEδy cache_activation).2 k).isSome = true) :
    Dense.get_parameters d k = d.activation.get_parameters k
      ∧ (Dense.backward d δEδy (cache_linear, cache_bias, cache_activation)).2 k
          = (d.activation.backward δEδy cache_activation).2 k := by
  constructor
  · rcases Option.isSome_iff_exists.mp hpLate with ⟨v, hv⟩
    simp [Dense.get_parameters, denseMergeParams, dictMerge, hv]
  · rcases Option.isSome_iff_exists.mp hgLate with ⟨v, hv⟩
    simp [Dense.backward, denseMergeBackward, dictMerge, hv]

/-- Witness for C8 on `dCollAll`, whose three children all expose `"w"`:
the merged parameter value is the activation's `some 3` (the linear value
`some 1` is overwritten) and the merged gradient is the activation's
`some 30` (the bias gradient `some 20` is overwritten). -/
theorem dense_merge_silent_overwrite_w :
    (dCollAll.linear.get_parameters "w").isSome = true
      ∧ (dCollAll.activation.get_parameters "w").isSome = true
      ∧ ((dCollAll.bias.backward (dCollAll.activation.backward 1 ()).1 ()).2 "w").isSome = true
      ∧ ((dCollAll.activation.backward 1 ()).2 "w").isSome = true
      ∧ (Dense.get_parameters dCollAll "w" = dCollAll.activation.get_parameters "w"
          ∧ (Dense.backward dCollAll 1 ((), (), ())).2 "w"
              = (dCollAll.activation.backward 1 ()).2 "w") :=
  ⟨rfl, rfl, rfl, rfl,
    dense_merge_silent_overwrite dCollAll 1 () () () "w" rfl rfl rfl rfl⟩

/-- C9: the merge precedence differs between `Dense.backward` (order bias,
linear, activation) and `Dense.get_parameters` (order linear, bias,
activation): on a name shared by the Linear and Bias children and absent
from the activation, `backward` keeps the Linear child's gradient while
`get_parameters` keeps the Bias child's value. -/
theorem dense_merge_order_difference {T CL CB CA : Type} (d : Dense T CL CB CA)
    (δEδy : T) (cache_linear : CL) (cache_bias : CB) (cache_activation : CA) (k : String)
    (hga : (d.activation.backward δEδy cache_activation).2 k = none)
    (hgl : ((d.linear.backward
        (d.bias.backward (d.activation.backward δEδy cache_activation).1 cache_bias).1
        cache_linear).2 k).isSome = true)
    (hgb : ((d.bias.backward (d.activation.backward δEδy cache_activation).1 cache_bias).2
        k).isSome = true)
    (hpa : d.activation.get_parameters k = none)
    (hpl : (d.linear.get_parameters k).isSome = true)
    (hpb : (d.bias.get_parameters k).isSome = true) :
    (Dense.backward d δEδy (cache_linear, cache_bias, cache_activation)).2 k
        = (d.linear.backward
            (d.bias.backward (d.activation.backward δEδy cache_activation).1 cache_bias).1
            cache_linear).2 k
      ∧ Dense.get_parameters d k = d.bias.get_parameters k := by
  constructor
  · rcases Option.isSome_iff_exists.mp hgl with ⟨v, hv⟩
    simp [Dense.backward, denseMergeBackward, dictMerge, hga, hv]
  · rcases Option.isSome_iff_exists.mp hpb with ⟨v, hv⟩
    simp [Dense.get_parameters, denseMergeParams, dictMerge, hpa, hv]

/-- Witness for C9 on `dCollLB`, whose Linear and Bias collide on `"w"`
while the activation is parameter-free: backward keeps the Linear gradient
`some 10`, get_parameters keeps the Bias value `some 2`. -/
theorem dense_merge_order_difference_w :
    (dCollLB.activation.backward 1 ()).2 "w" = none
      ∧ ((dCollLB.linear.backward
            (dCollLB.bias.backward (dCollLB.activation.backward 1 ()).1 ()).1
            ()).2 "w").isSome = true
      ∧ ((dCollLB.bias.backward (dCollLB.activation.backward 1 ()).1 ()).2 "w").isSome = true
      ∧ dCollLB.activation.get_parameters "w" = none
      ∧ (dCollLB.linear.get_parameters "w").isSome = true
      ∧ (dCollLB.bias.get_parameters "w").isSome = true
      ∧ ((Dense.backward dCollLB 1 ((), (), ())).2 "w"
            = (dCollLB.linear.backward
                (dCollLB.bias.backward (dCollLB.activation.backward 1 ()).1 ()).1
                ()).2 "w"
          ∧ Dense.get_parameters dCollLB "w" = dCollLB.bias.get_parameters "w") :=
  ⟨rfl, rfl, rfl, rfl, rfl, rfl,
    dense_merge_order_difference dCollLB 1 () () () "w" rfl rfl rfl rfl rfl rfl⟩

end Simplenn
